import Mathlib

/-!
Verification of the refresh-token lifecycle manager of the fiber-order
repository (Go).  The embedding below mirrors, definition by definition:

* `HashToken` (repositories): SHA-256 of the raw token bytes, hex-encoded
  (`sha256.Sum256` + `hex.EncodeToString`);
* the `RefreshToken` gorm model (models);
* `StoreRefreshToken` and `RotateRefreshToken` (repositories): the rotation
  engine, with the external effects (JWT issuance via `helpers.GenerateToken`,
  store-write failures, `uuid.New`, `time.Now`) supplied as an explicit
  environment;
* the `Logout` handler (handlers/user.go): bulk `UPDATE ... SET is_revoked`
  keyed by token hash, unconditional success response.

The gorm table is modelled as a list of records in insertion order; a
transaction is modelled by building the updated list and returning either it
(`Commit`) or the original list (`Rollback`).
-/

namespace FiberOrder

/-! ## Token Hasher: SHA-256 and hex encoding

Go: `hash := sha256.Sum256([]byte(token)); return hex.EncodeToString(hash[:])`.
Bytes are `Nat` values below 256; 32-bit words are `Nat` values reduced
mod `2^32` wherever Go's `uint32` wraps. -/

/-- Modulus of Go's `uint32` arithmetic. -/
def M32 : Nat := 4294967296

/-- UTF-8 encoding of one code point, as Go's `[]byte(string)` produces. -/
def utf8EncodeChar (c : Char) : List Nat :=
  let n := c.toNat
  if n < 128 then [n]
  else if n < 2048 then
    [192 ||| (n >>> 6), 128 ||| (n &&& 63)]
  else if n < 65536 then
    [224 ||| (n >>> 12), 128 ||| ((n >>> 6) &&& 63), 128 ||| (n &&& 63)]
  else
    [240 ||| (n >>> 18), 128 ||| ((n >>> 12) &&& 63),
     128 ||| ((n >>> 6) &&& 63), 128 ||| (n &&& 63)]

/-- The byte sequence of a Go string: UTF-8 bytes of its code points. -/
def utf8Bytes (s : String) : List Nat :=
  s.data.flatMap utf8EncodeChar

/-- Right rotation of a 32-bit word. -/
def rotr32 (x n : Nat) : Nat :=
  ((x >>> n) ||| (x <<< (32 - n))) % M32

/-- SHA-256 big sigma 0. -/
def bsig0 (x : Nat) : Nat := rotr32 x 2 ^^^ rotr32 x 13 ^^^ rotr32 x 22

/-- SHA-256 big sigma 1. -/
def bsig1 (x : Nat) : Nat := rotr32 x 6 ^^^ rotr32 x 11 ^^^ rotr32 x 25

/-- SHA-256 small sigma 0. -/
def ssig0 (x : Nat) : Nat := rotr32 x 7 ^^^ rotr32 x 18 ^^^ (x >>> 3)

/-- SHA-256 small sigma 1. -/
def ssig1 (x : Nat) : Nat := rotr32 x 17 ^^^ rotr32 x 19 ^^^ (x >>> 10)

/-- SHA-256 choice function; complement taken within 32 bits. -/
def chFn (x y z : Nat) : Nat := (x &&& y) ^^^ ((x ^^^ 4294967295) &&& z)

/-- SHA-256 majority function. -/
def majFn (x y z : Nat) : Nat := (x &&& y) ^^^ (x &&& z) ^^^ (y &&& z)

/-- The 64 SHA-256 round constants, written in decimal. -/
def sha256K : List Nat :=
  [1116352408, 1899447441, 3049323471, 3921009573,
   961987163, 1508970993, 2453635748, 2870763221,
   3624381080, 310598401, 607225278, 1426881987,
   1925078388, 2162078206, 2614888103, 3248222580,
   3835390401, 4022224774, 264347078, 604807628,
   770255983, 1249150122, 1555081692, 1996064986,
   2554220882, 2821834349, 2952996808, 3210313671,
   3336571891, 3584528711, 113926993, 338241895,
   666307205, 773529912, 1294757372, 1396182291,
   1695183700, 1986661051, 2177026350, 2456956037,
   2730485921, 2820302411, 3259730800, 3345764771,
   3516065817, 3600352804, 4094571909, 275423344,
   430227734, 506948616, 659060556, 883997877,
   958139571, 1322822218, 1537002063, 1747873779,
   1955562222, 2024104815, 2227730452, 2361852424,
   2428436474, 2756734187, 3204031479, 3329325298]

/-- The eight 32-bit chaining values of SHA-256, as one record. -/
structure Hash8 where
  a : Nat
  b : Nat
  c : Nat
  d : Nat
  e : Nat
  f : Nat
  g : Nat
  h : Nat
deriving Repr, DecidableEq

/-- The SHA-256 initial hash value, written in decimal. -/
def sha256H0 : Hash8 :=
  ⟨1779033703, 3144134277, 1013904242, 2773480762,
   1359893119, 2600822924, 528734635, 1541459225⟩

/-- Big-endian bytes of the 64-bit message bit length. -/
def lenBytes64 (bitLen : Nat) : List Nat :=
  [(bitLen >>> 56) % 256, (bitLen >>> 48) % 256, (bitLen >>> 40) % 256,
   (bitLen >>> 32) % 256, (bitLen >>> 24) % 256, (bitLen >>> 16) % 256,
   (bitLen >>> 8) % 256, bitLen % 256]

/-- SHA-256 padding: append `0x80`, zeros to 56 mod 64, then the bit length. -/
def padMessage (msg : List Nat) : List Nat :=
  let z := (119 - msg.length % 64) % 64
  msg ++ [128] ++ List.replicate z 0 ++ lenBytes64 (8 * msg.length)

/-- Split a byte list into chunks of 64, structurally on a fuel bound. -/
def toBlocksAux : Nat → List Nat → List (List Nat)
  | 0, _ => []
  | _, [] => []
  | fuel + 1, b :: bytes => (b :: bytes).take 64 :: toBlocksAux fuel ((b :: bytes).drop 64)

/-- Split a byte list into chunks of 64 (the padded message makes them exact). -/
def toBlocks (bytes : List Nat) : List (List Nat) :=
  toBlocksAux bytes.length bytes

/-- Big-endian 32-bit words from a block's bytes. -/
def toWords : List Nat → List Nat
  | b0 :: b1 :: b2 :: b3 :: rest =>
      (((b0 * 256 + b1) * 256 + b2) * 256 + b3) :: toWords rest
  | _ => []

/-- Append the next word of the SHA-256 message schedule. -/
def scheduleStep (w : List Nat) : List Nat :=
  let L := w.length
  w ++ [(ssig1 (w.getD (L - 2) 0) + w.getD (L - 7) 0 +
         ssig0 (w.getD (L - 15) 0) + w.getD (L - 16) 0) % M32]

/-- Extend the 16 block words to the 64-entry message schedule. -/
def schedule (w16 : List Nat) : List Nat :=
  (List.range 48).foldl (fun w _ => scheduleStep w) w16

/-- One SHA-256 compression round. -/
def round8 (st : Hash8) (kw : Nat × Nat) : Hash8 :=
  let t1 := (st.h + bsig1 st.e + chFn st.e st.f st.g + kw.1 + kw.2) % M32
  let t2 := (bsig0 st.a + majFn st.a st.b st.c) % M32
  ⟨(t1 + t2) % M32, st.a, st.b, st.c, (st.d + t1) % M32, st.e, st.f, st.g⟩

/-- Compress one 64-byte block into the chaining value. -/
def compressBlock (h0 : Hash8) (block : List Nat) : Hash8 :=
  let st := (sha256K.zip (schedule (toWords block))).foldl round8 h0
  ⟨(h0.a + st.a) % M32, (h0.b + st.b) % M32, (h0.c + st.c) % M32,
   (h0.d + st.d) % M32, (h0.e + st.e) % M32, (h0.f + st.f) % M32,
   (h0.g + st.g) % M32, (h0.h + st.h) % M32⟩

/-- Big-endian bytes of one 32-bit word. -/
def wordBytes (w : Nat) : List Nat :=
  [(w >>> 24) % 256, (w >>> 16) % 256, (w >>> 8) % 256, w % 256]

/-- The 32 digest bytes of SHA-256 over a byte sequence. -/
def sha256Bytes (msg : List Nat) : List Nat :=
  let fin := (toBlocks (padMessage msg)).foldl compressBlock sha256H0
  wordBytes fin.a ++ wordBytes fin.b ++ wordBytes fin.c ++ wordBytes fin.d ++
  wordBytes fin.e ++ wordBytes fin.f ++ wordBytes fin.g ++ wordBytes fin.h

/-- The digit table of Go's `encoding/hex`: `"0123456789abcdef"`. -/
def hextable : String := "0123456789abcdef"

/-- The sixteen lowercase hexadecimal digit characters. -/
def hexDigits : List Char := hextable.data

/-- Lowercase hex digit of a value below 16. -/
def hexChar (n : Nat) : Char := hexDigits.getD n '0'

/-- The two lowercase hex characters of one byte, as in Go's `encoding/hex`. -/
def byteHexChars (b : Nat) : List Char :=
  [hexChar ((b >>> 4) % 16), hexChar (b % 16)]

/-- Hex encoding of a byte list, as `hex.EncodeToString` produces. -/
def hexEncodeBytes (bs : List Nat) : String :=
  ⟨bs.flatMap byteHexChars⟩

/-- Go `HashToken`: lowercase-hex SHA-256 digest of the raw token string. -/
def HashToken (token : String) : String :=
  hexEncodeBytes (sha256Bytes (utf8Bytes token))

/-! ## Data model: the `RefreshToken` gorm table

Go model (models): `ID uuid`, `UserID uuid`, `TokenHash string`,
`IsRevoked bool` (default false), `ExpiresAt time.Time`, `CreatedAt time.Time`.
UUIDs are modelled as `Nat`, timestamps as `Int` seconds.  The table is the
list of rows in insertion order; gorm's `First` on a `WHERE` clause is the
first matching row. -/

/-- One row of the `refresh_tokens` table. -/
structure RefreshToken where
  id : Nat
  userId : Nat
  tokenHash : String
  isRevoked : Bool
  expiresAt : Int
  createdAt : Int
deriving Repr, DecidableEq

/-- The `refresh_tokens` table: rows in insertion order. -/
abbrev Store := List RefreshToken

/-- gorm `Where("token_hash = ?", hash).First(&dbToken)`: first matching row. -/
def findByHash (store : Store) (hash : String) : Option RefreshToken :=
  store.find? (fun r => r.tokenHash == hash)

/-- gorm `Model(&RefreshToken{}).Where(p).Update("is_revoked", true)`:
set `isRevoked` on every row matching the `WHERE` clause. -/
def updateIsRevokedWhere (p : RefreshToken → Bool) (store : Store) : Store :=
  store.map (fun r => if p r then { r with isRevoked := true } else r)

/-- The bulk revocation on the reuse path:
`Where("user_id=?", dbToken.UserID).Update("is_revoked", true)`. -/
def revokeAllForUser (uid : Nat) (store : Store) : Store :=
  updateIsRevokedWhere (fun r => r.userId == uid) store

/-- gorm `Save(&dbToken)`: write the row back by primary key. -/
def saveById (store : Store) (t : RefreshToken) : Store :=
  store.map (fun r => if r.id == t.id then t else r)

/-! ## Rotation engine: `RotateRefreshToken`

External effects the Go code performs inside the transaction are supplied as
an explicit environment: the results of the two `helpers.GenerateToken` calls
(`none` models a signing error), whether `tx.Create` of the successor row
fails, whether the bulk `Update` on the reuse path fails (the Go code does not
inspect that error), the `uuid.New()` drawn by the `BeforeCreate` hook, and
`time.Now()`. -/

/-- Outcome of the external calls made during one `RotateRefreshToken` run. -/
structure RotateEnv where
  genAccessToken : Option String
  genRefreshToken : Option String
  createFails : Bool
  revokeAllFails : Bool
  newId : Nat
  now : Int
deriving Repr, DecidableEq

/-- The error values `RotateRefreshToken` can return. -/
inductive RotateErr where
  /-- gorm `ErrRecordNotFound` propagated from `First`. -/
  | recordNotFound
  /-- `fmt.Errorf("token reuse detected")`. -/
  | reuseDetected
  /-- an error propagated from `helpers.GenerateToken`. -/
  | signingFailed
  /-- an error propagated from `tx.Create` of the successor row. -/
  | createFailed
deriving Repr, DecidableEq

/-- Result of `RotateRefreshToken`: the two returned strings, the returned
error, and the table after `Commit`/`Rollback`. -/
structure RotateResult where
  access : String
  refresh : String
  error : Option RotateErr
  store : Store
deriving Repr, DecidableEq

/-- Seconds in `7 * 24 * time.Hour`. -/
def sevenDays : Int := 604800

/-- Go `RotateRefreshToken` (repositories), line by line.  `Rollback` paths
return the original table; `Commit` paths return the transaction's table.
The bulk `Update` error on the reuse path is not inspected by the Go code:
when that write fails no row changes, yet `Commit` and the reuse error
follow all the same. -/
def RotateRefreshToken (env : RotateEnv) (oldTokenString : String)
    (store : Store) : RotateResult :=
  let hash := HashToken oldTokenString
  match findByHash store hash with
  | none => ⟨"", "", some .recordNotFound, store⟩
  | some dbToken =>
    if dbToken.isRevoked then
      let txStore :=
        if env.revokeAllFails then store else revokeAllForUser dbToken.userId store
      ⟨"", "", some .reuseDetected, txStore⟩
    else
      let txStore := saveById store { dbToken with isRevoked := true }
      match env.genAccessToken with
      | none => ⟨"", "", some .signingFailed, store⟩
      | some newAccessToken =>
        match env.genRefreshToken with
        | none => ⟨"", "", some .signingFailed, store⟩
        | some newRefreshToken =>
          let newDbToken : RefreshToken :=
            { id := env.newId
              userId := dbToken.userId
              tokenHash := HashToken newRefreshToken
              isRevoked := false
              expiresAt := env.now + sevenDays
              createdAt := env.now }
          if env.createFails then ⟨"", "", some .createFailed, store⟩
          else ⟨newAccessToken, newRefreshToken, none, txStore ++ [newDbToken]⟩

/-- Go `StoreRefreshToken`: insert a fresh row for `userID` hashing `token`;
`newId` is the `uuid.New()` of the `BeforeCreate` hook, `createdAt` the
insertion time. -/
def StoreRefreshToken (store : Store) (newId userID : Nat) (token : String)
    (expiresAt createdAt : Int) : Store :=
  store ++ [{ id := newId
              userId := userID
              tokenHash := HashToken token
              isRevoked := false
              expiresAt := expiresAt
              createdAt := createdAt }]

/-! ## Logout handler

Go `Logout` (handlers/user.go): read the `refresh_token` cookie (`""` when
absent), bulk-update `is_revoked` on every row whose hash matches, clear the
cookie, and answer the fixed success message — no error is ever surfaced. -/

/-- What `Logout` leaves behind: the table, the response body, and whether
the cookie was cleared. -/
structure LogoutResult where
  store : Store
  message : String
  cookieCleared : Bool
deriving Repr, DecidableEq

/-- Go `Logout`, line by line. -/
def Logout (store : Store) (cookie : String) : LogoutResult :=
  let hash := HashToken cookie
  { store := updateIsRevokedWhere (fun r => r.tokenHash == hash) store
    message := "Logged out successfully"
    cookieCleared := true }

/-! ## The operations touching the table, for the monotonicity invariant -/

/-- One call into the core that touches the `refresh_tokens` table. -/
inductive Op where
  | rotate (env : RotateEnv) (token : String)
  | logout (cookie : String)
  | storeToken (newId userID : Nat) (token : String) (expiresAt createdAt : Int)

/-- The table after one operation. -/
def applyOp (s : Store) : Op → Store
  | .rotate env tok => (RotateRefreshToken env tok s).store
  | .logout cookie => (Logout s cookie).store
  | .storeToken i u t e c => StoreRefreshToken s i u t e c

/-- The table after a sequence of operations. -/
def applyOps (s : Store) (ops : List Op) : Store :=
  ops.foldl applyOp s

/-! ## Concrete instances

Small concrete tables and environments used to exercise the theorems on
explicit inputs.  Each scenario has its own rows so the scenarios stay
independent of one another. -/

/-- An environment in which every external call succeeds. -/
def envOk : RotateEnv :=
  { genAccessToken := some "newAccess"
    genRefreshToken := some "newRefresh"
    createFails := false
    revokeAllFails := false
    newId := 2
    now := 500 }

/-- A stored session for user 10 that expired at time `-5`, not revoked. -/
def rExpired : RefreshToken :=
  { id := 1, userId := 10, tokenHash := HashToken "t1"
    isRevoked := false, expiresAt := -5, createdAt := -700000 }

/-- A table holding only the expired session. -/
def stExpired : Store := [rExpired]

/-- An already-revoked session for user 20: the reuse signal. -/
def rUsed : RefreshToken :=
  { id := 1, userId := 20, tokenHash := HashToken "t2"
    isRevoked := true, expiresAt := 1000, createdAt := 0 }

/-- A second, still-active session of the same user 20. -/
def rOther : RefreshToken :=
  { id := 2, userId := 20, tokenHash := "otherhash"
    isRevoked := false, expiresAt := 1000, createdAt := 0 }

/-- A table where user 20 has a consumed session and an active one. -/
def stReuse : Store := [rUsed, rOther]

/-- The all-succeed environment for the reuse scenario. -/
def envReuse : RotateEnv :=
  { genAccessToken := some "newAccess"
    genRefreshToken := some "newRefresh"
    createFails := false
    revokeAllFails := false
    newId := 3
    now := 500 }

/-- The reuse scenario's environment with the bulk revocation write failing. -/
def envRevokeAllDown : RotateEnv :=
  { genAccessToken := some "newAccess"
    genRefreshToken := some "newRefresh"
    createFails := false
    revokeAllFails := true
    newId := 3
    now := 500 }

/-- An active stored session for user 30. -/
def rActive : RefreshToken :=
  { id := 1, userId := 30, tokenHash := HashToken "t3"
    isRevoked := false, expiresAt := 1000, createdAt := 0 }

/-- A table holding only the active session of user 30. -/
def stActive : Store := [rActive]

/-- An environment in which the access-token signing call fails. -/
def envSigningDown : RotateEnv :=
  { genAccessToken := none
    genRefreshToken := some "newRefresh"
    createFails := false
    revokeAllFails := false
    newId := 2
    now := 500 }

/-- An active stored session for user 40, presented as token `"t4"`. -/
def rFresh : RefreshToken :=
  { id := 1, userId := 40, tokenHash := HashToken "t4"
    isRevoked := false, expiresAt := 1000, createdAt := 0 }

/-- A table holding only user 40's active session. -/
def stFresh : Store := [rFresh]

/-- An environment whose issuer hands back the very string that was
presented — what `helpers.GenerateToken` produces when the issuer claim and
the second-resolution expiry claim coincide with the old token's, HS256
signing being deterministic. -/
def envSameToken : RotateEnv :=
  { genAccessToken := some "newAccess"
    genRefreshToken := some "t4"
    createFails := false
    revokeAllFails := false
    newId := 2
    now := 500 }

/-- An environment whose issuer hands back a fresh refresh token `"z9"`. -/
def envFreshToken : RotateEnv :=
  { genAccessToken := some "newAccess"
    genRefreshToken := some "z9"
    createFails := false
    revokeAllFails := false
    newId := 2
    now := 500 }

/-- An already-revoked row for the monotonicity scenario. -/
def rDone : RefreshToken :=
  { id := 7, userId := 50, tokenHash := "somehash"
    isRevoked := true, expiresAt := 1000, createdAt := 0 }

/-- A one-row table whose row is already revoked. -/
def stDone : Store := [rDone]

/-! ## Helper lemmas about the hasher -/

/-- Every value `hexChar` can produce is one of the sixteen hex digits. -/
theorem hexChar_mem (n : Nat) : hexChar n ∈ hexDigits := by
  unfold hexChar
  by_cases h : n < hexDigits.length
  · have h16 : hexDigits.length = 16 := rfl
    rw [h16] at h
    interval_cases n <;> decide
  · rw [List.getD_eq_default _ _ (by omega)]
    decide

/-- Hex encoding doubles the byte count. -/
theorem length_flatMap_byteHexChars (bs : List Nat) :
    (bs.flatMap byteHexChars).length = 2 * bs.length := by
  induction bs with
  | nil => simp
  | cons b bs ih => simp [byteHexChars, ih]; omega

/-- Every character of a hex encoding is a hex digit. -/
theorem mem_flatMap_byteHexChars {bs : List Nat} {c : Char}
    (hc : c ∈ bs.flatMap byteHexChars) : c ∈ hexDigits := by
  rw [List.mem_flatMap] at hc
  obtain ⟨b, _, hcb⟩ := hc
  simp only [byteHexChars, List.mem_cons, List.not_mem_nil, or_false] at hcb
  rcases hcb with h | h <;> (subst h; exact hexChar_mem _)

/-- A SHA-256 digest is 32 bytes by construction. -/
theorem sha256Bytes_length (msg : List Nat) : (sha256Bytes msg).length = 32 := by
  simp [sha256Bytes, wordBytes]

/-! ## C10 — the token hasher -/

/-- C10: `HashToken` is a total deterministic function: every input string has
a digest, equal inputs give equal digests, and the digest — the hex-encoded
SHA-256 of the input — is a 64-character string drawn from the lowercase
hexadecimal alphabet. -/
theorem hashToken_total_deterministic_hex (s : String) :
    (HashToken s).length = 64 ∧
    (∀ t : String, s = t → HashToken s = HashToken t) ∧
    (∀ c ∈ (HashToken s).data, c ∈ hexDigits) := by
  refine ⟨?_, fun t h => h ▸ rfl, fun c hc => mem_flatMap_byteHexChars hc⟩
  show (HashToken s).data.length = 64
  have h1 : (HashToken s).data = (sha256Bytes (utf8Bytes s)).flatMap byteHexChars := rfl
  rw [h1, length_flatMap_byteHexChars, sha256Bytes_length]

/-- C10 witness: the theorem applied at the concrete input `"abc"`. -/
theorem hashToken_total_deterministic_hex_witness :
    (HashToken "abc").length = 64 ∧ HashToken "abc" = HashToken "abc" :=
  ⟨(hashToken_total_deterministic_hex "abc").1,
   (hashToken_total_deterministic_hex "abc").2.1 "abc" rfl⟩

/-! ## C6 — unknown token -/

/-- C6: when the presented token's hash matches no stored row, rotation fails
with the record-not-found error (the spec's `InvalidSessionError`) and the
table is returned exactly as it was — nothing revoked, nothing created. -/
theorem rotate_unknown_token (env : RotateEnv) (tok : String) (store : Store)
    (hfind : findByHash store (HashToken tok) = none) :
    RotateRefreshToken env tok store =
      { access := "", refresh := "", error := some .recordNotFound
        store := store } := by
  simp only [RotateRefreshToken, hfind]

/-- C6 witness: rotating an unknown token against the empty table. -/
theorem rotate_unknown_token_witness :
    findByHash [] (HashToken "ghost") = none ∧
    RotateRefreshToken envOk "ghost" [] =
      { access := "", refresh := "", error := some .recordNotFound
        store := [] } :=
  ⟨rfl, rotate_unknown_token envOk "ghost" [] rfl⟩

/-! ## Helper lemmas about bulk revocation -/

/-- Bulk revocation rewrites rows in place: the row count is unchanged. -/
theorem length_revokeAllForUser (uid : Nat) (store : Store) :
    (revokeAllForUser uid store).length = store.length := by
  simp [revokeAllForUser, updateIsRevokedWhere]

/-- After bulk revocation, every row of the targeted user is revoked. -/
theorem mem_revokeAllForUser_revoked (uid : Nat) (store : Store)
    (x : RefreshToken) (hx : x ∈ revokeAllForUser uid store)
    (hux : x.userId = uid) : x.isRevoked = true := by
  simp only [revokeAllForUser, updateIsRevokedWhere, List.mem_map] at hx
  obtain ⟨y, _, rfl⟩ := hx
  by_cases hc : (y.userId == uid) = true
  · simp [hc]
  · rw [if_neg hc] at hux ⊢
    exact absurd hux (by simpa using hc)

/-! ## C2 — reuse detection revokes every session of the owner -/

/-- C2: presenting a token whose stored row is already revoked makes rotation
revoke every row of that row's user, return no tokens, and fail with the
reuse error; the row count is unchanged (no successor row), and any
subsequent lookup landing on a row of that user sees it revoked. -/
theorem rotate_reuse_revokes_all_sessions (env : RotateEnv) (tok : String)
    (store : Store) (r : RefreshToken)
    (hfind : findByHash store (HashToken tok) = some r)
    (hrev : r.isRevoked = true)
    (hwrite : env.revokeAllFails = false) :
    RotateRefreshToken env tok store =
      { access := "", refresh := "", error := some .reuseDetected
        store := revokeAllForUser r.userId store } ∧
    (RotateRefreshToken env tok store).store.length = store.length ∧
    (∀ x ∈ (RotateRefreshToken env tok store).store,
        x.userId = r.userId → x.isRevoked = true) ∧
    (∀ h x, findByHash (RotateRefreshToken env tok store).store h = some x →
        x.userId = r.userId → x.isRevoked = true) := by
  have hmain : RotateRefreshToken env tok store =
      { access := "", refresh := "", error := some .reuseDetected
        store := revokeAllForUser r.userId store } := by
    simp only [RotateRefreshToken, hfind, hrev, hwrite]
    simp
  refine ⟨hmain, ?_, ?_, ?_⟩
  · rw [hmain]
    exact length_revokeAllForUser r.userId store
  · rw [hmain]
    exact fun x hx hux => mem_revokeAllForUser_revoked r.userId store x hx hux
  · rw [hmain]
    exact fun h x hfx hux =>
      mem_revokeAllForUser_revoked r.userId store x
        (List.mem_of_find?_eq_some hfx) hux

/-- C2 witness: user 20 has a consumed session and an active one; presenting
the consumed token revokes both and fails with the reuse error. -/
theorem rotate_reuse_revokes_all_sessions_witness :
    findByHash stReuse (HashToken "t2") = some rUsed ∧
    rUsed.isRevoked = true ∧
    RotateRefreshToken envReuse "t2" stReuse =
      { access := "", refresh := "", error := some .reuseDetected
        store := revokeAllForUser rUsed.userId stReuse } := by
  have hfind : findByHash stReuse (HashToken "t2") = some rUsed := by
    simp only [findByHash, stReuse]
    exact List.find?_cons_of_pos _ (by simp [rUsed])
  exact ⟨hfind, rfl,
    (rotate_reuse_revokes_all_sessions envReuse "t2" stReuse rUsed hfind rfl rfl).1⟩

/-! ## C3 — the bulk-revocation error is silently ignored -/

/-- C3 (divergence): when the bulk revocation write on the reuse path fails,
the Go code does not inspect that error: it still commits and still returns
the reuse error.  At this input user 20's other session stays active and no
rotation-failure error is raised — the table comes back byte-for-byte
unchanged with the reuse error alongside it. -/
theorem rotate_reuse_revoke_write_failure_ignored :
    rUsed.isRevoked = true ∧ rOther.isRevoked = false ∧
    rOther.userId = rUsed.userId ∧ rOther ∈ stReuse ∧
    envRevokeAllDown.revokeAllFails = true ∧
    RotateRefreshToken envRevokeAllDown "t2" stReuse =
      { access := "", refresh := "", error := some .reuseDetected
        store := stReuse } := by
  have hfind : findByHash stReuse (HashToken "t2") = some rUsed := by
    simp only [findByHash, stReuse]
    exact List.find?_cons_of_pos _ (by simp [rUsed])
  refine ⟨rfl, rfl, rfl, by simp [stReuse], rfl, ?_⟩
  simp only [RotateRefreshToken, hfind, envRevokeAllDown]
  simp [rUsed]

/-! ## Helper lemmas about the active path -/

/-- A row handed back by `findByHash` carries the looked-up hash. -/
theorem findByHash_tokenHash {store : Store} {h : String} {r : RefreshToken}
    (hf : findByHash store h = some r) : r.tokenHash = h := by
  have hp := List.find?_some hf
  simpa using hp

/-- The rotation result on the active path when the issuer and the insert all
succeed, read off the Go control flow: old row written back revoked, successor
row appended, both fresh strings returned, no error. -/
theorem rotate_active_eq (env : RotateEnv) (tok : String) (store : Store)
    (r : RefreshToken) (acc ref : String)
    (hfind : findByHash store (HashToken tok) = some r)
    (hact : r.isRevoked = false)
    (hacc : env.genAccessToken = some acc)
    (href : env.genRefreshToken = some ref)
    (hcr : env.createFails = false) :
    RotateRefreshToken env tok store =
      { access := acc, refresh := ref, error := none
        store := saveById store { r with isRevoked := true } ++
          [{ id := env.newId, userId := r.userId, tokenHash := HashToken ref
             isRevoked := false, expiresAt := env.now + sevenDays
             createdAt := env.now }] } := by
  simp only [RotateRefreshToken, hfind, hact, hacc, href, hcr]
  simp

/-! ## C4 — any failure while issuing the successor rolls everything back -/

/-- C4: on the active path, if minting the access token, minting the refresh
token, or inserting the successor row fails, rotation returns an error and
the table it hands back is exactly the one it started from: the presented
row is still unrevoked and no successor row exists. -/
theorem rotate_active_failure_aborts (env : RotateEnv) (tok : String)
    (store : Store) (r : RefreshToken)
    (hfind : findByHash store (HashToken tok) = some r)
    (hact : r.isRevoked = false)
    (hfail : env.genAccessToken = none ∨ env.genRefreshToken = none ∨
             env.createFails = true) :
    ∃ e : RotateErr, RotateRefreshToken env tok store =
      { access := "", refresh := "", error := some e, store := store } := by
  cases hacc : env.genAccessToken with
  | none =>
    refine ⟨.signingFailed, ?_⟩
    simp only [RotateRefreshToken, hfind, hact, hacc]
    simp
  | some a =>
    cases href : env.genRefreshToken with
    | none =>
      refine ⟨.signingFailed, ?_⟩
      simp only [RotateRefreshToken, hfind, hact, hacc, href]
      simp
    | some b =>
      have hcr : env.createFails = true := by
        rcases hfail with h | h | h
        · rw [hacc] at h; cases h
        · rw [href] at h; cases h
        · exact h
      refine ⟨.createFailed, ?_⟩
      simp only [RotateRefreshToken, hfind, hact, hacc, href, hcr]
      simp

/-- C4 witness: user 30's active session presented while the access-token
signing call is down — the error surfaces and the table is untouched. -/
theorem rotate_active_failure_aborts_witness :
    findByHash stActive (HashToken "t3") = some rActive ∧
    rActive.isRevoked = false ∧
    (∃ e : RotateErr, RotateRefreshToken envSigningDown "t3" stActive =
      { access := "", refresh := "", error := some e, store := stActive }) := by
  have hfind : findByHash stActive (HashToken "t3") = some rActive := by
    simp only [findByHash, stActive]
    exact List.find?_cons_of_pos _ (by simp [rActive])
  exact ⟨hfind, rfl,
    rotate_active_failure_aborts envSigningDown "t3" stActive rActive hfind rfl
      (Or.inl rfl)⟩

/-! ## C5 — what a successful rotation does to the table -/

/-- C5 (amended): a successful rotation of an active session revokes exactly
the presented row, appends exactly one successor row owned by the same user
whose `tokenHash` is the hash of the returned refresh token, and touches no
row with a different id.  The successor's hash differs from the presented
row's hash exactly when the issued refresh token hashes differently from the
presented token — the code itself does not enforce that difference. -/
theorem rotate_active_success_effects (env : RotateEnv) (tok : String)
    (store : Store) (r : RefreshToken) (acc ref : String)
    (hfind : findByHash store (HashToken tok) = some r)
    (hact : r.isRevoked = false)
    (hacc : env.genAccessToken = some acc)
    (href : env.genRefreshToken = some ref)
    (hcr : env.createFails = false) :
    r.tokenHash = HashToken tok ∧
    RotateRefreshToken env tok store =
      { access := acc, refresh := ref, error := none
        store := saveById store { r with isRevoked := true } ++
          [{ id := env.newId, userId := r.userId, tokenHash := HashToken ref
             isRevoked := false, expiresAt := env.now + sevenDays
             createdAt := env.now }] } ∧
    (RotateRefreshToken env tok store).store.length = store.length + 1 ∧
    (∀ i (h : i < store.length), (store.get ⟨i, h⟩).id ≠ r.id →
       ∃ h2 : i < (RotateRefreshToken env tok store).store.length,
         (RotateRefreshToken env tok store).store.get ⟨i, h2⟩ =
           store.get ⟨i, h⟩) ∧
    (∀ i (h : i < store.length), store.get ⟨i, h⟩ = r →
       ∃ h2 : i < (RotateRefreshToken env tok store).store.length,
         (RotateRefreshToken env tok store).store.get ⟨i, h2⟩ =
           { r with isRevoked := true }) ∧
    (HashToken ref ≠ HashToken tok → HashToken ref ≠ r.tokenHash) := by
  have hmain := rotate_active_eq env tok store r acc ref hfind hact hacc href hcr
  have hth := findByHash_tokenHash hfind
  refine ⟨hth, hmain, ?_, ?_, ?_, ?_⟩
  · rw [hmain]
    simp [saveById]
  · intro i h hne
    rw [hmain]
    refine ⟨by simp [saveById]; omega, ?_⟩
    simp only [List.get_eq_getElem]
    rw [List.getElem_append_left (by simpa [saveById] using h)]
    simp only [saveById, List.getElem_map]
    rw [if_neg]
    simp only [List.get_eq_getElem] at hne
    simpa using hne
  · intro i h heq
    rw [hmain]
    refine ⟨by simp [saveById]; omega, ?_⟩
    simp only [List.get_eq_getElem]
    rw [List.getElem_append_left (by simpa [saveById] using h)]
    simp only [saveById, List.getElem_map]
    simp only [List.get_eq_getElem] at heq
    rw [heq]
    simp
  · intro hne
    rw [hth]
    exact hne

/-- C5 witness: user 40's active session rotated with a fresh issuer output
`"z9"`; the explicit before/after tables of the theorem at that input. -/
theorem rotate_active_success_effects_witness :
    findByHash stFresh (HashToken "t4") = some rFresh ∧
    rFresh.isRevoked = false ∧
    RotateRefreshToken envFreshToken "t4" stFresh =
      { access := "newAccess", refresh := "z9", error := none
        store := saveById stFresh { rFresh with isRevoked := true } ++
          [{ id := 2, userId := 40, tokenHash := HashToken "z9"
             isRevoked := false, expiresAt := 500 + sevenDays
             createdAt := 500 }] } := by
  have hfind : findByHash stFresh (HashToken "t4") = some rFresh := by
    simp only [findByHash, stFresh]
    exact List.find?_cons_of_pos _ (by simp [rFresh])
  exact ⟨hfind, rfl,
    (rotate_active_success_effects envFreshToken "t4" stFresh rFresh
      "newAccess" "z9" hfind rfl rfl rfl rfl).2.1⟩

/-- C5 counterexample: when the issuer reproduces the presented string — what
`helpers.GenerateToken` yields when the issuer claim and the second-resolution
expiry claim repeat, HS256 signing being deterministic — rotation still
succeeds and the successor row carries the very same `tokenHash` as the
presented row: the new refresh token's hash does not differ from the old. -/
theorem rotate_same_token_counterexample :
    rFresh.isRevoked = false ∧
    findByHash stFresh (HashToken "t4") = some rFresh ∧
    (RotateRefreshToken envSameToken "t4" stFresh).error = none ∧
    (RotateRefreshToken envSameToken "t4" stFresh).refresh = "t4" ∧
    (RotateRefreshToken envSameToken "t4" stFresh).store =
      [{ rFresh with isRevoked := true },
       { id := 2, userId := 40, tokenHash := rFresh.tokenHash
         isRevoked := false, expiresAt := 500 + sevenDays
         createdAt := 500 }] := by
  have hfind : findByHash stFresh (HashToken "t4") = some rFresh := by
    simp only [findByHash, stFresh]
    exact List.find?_cons_of_pos _ (by simp [rFresh])
  have hmain := rotate_active_eq envSameToken "t4" stFresh rFresh
    "newAccess" "t4" hfind rfl rfl rfl rfl
  refine ⟨rfl, hfind, ?_, ?_, ?_⟩
  · rw [hmain]
  · rw [hmain]
  · rw [hmain]
    simp [saveById, stFresh, rFresh, envSameToken]

/-! ## C1 — rotation never consults the expiry timestamp -/

/-- C1 (amended): `RotateRefreshToken` performs no `expiresAt` comparison: a
stored, unrevoked session whose `expiresAt` lies in the past rotates exactly
like an active one — the presented row is revoked, a successor owned by the
same user is created, and the fresh tokens are returned with no error.  No
expiry error value exists in the rotation code; expiry is enforced upstream,
by the JWT validation the `Refresh` handler runs before calling rotation. -/
theorem rotate_ignores_expiry (env : RotateEnv) (tok : String) (store : Store)
    (r : RefreshToken) (acc ref : String)
    (hfind : findByHash store (HashToken tok) = some r)
    (hact : r.isRevoked = false)
    (_hexp : r.expiresAt < env.now)
    (hacc : env.genAccessToken = some acc)
    (href : env.genRefreshToken = some ref)
    (hcr : env.createFails = false) :
    RotateRefreshToken env tok store =
      { access := acc, refresh := ref, error := none
        store := saveById store { r with isRevoked := true } ++
          [{ id := env.newId, userId := r.userId, tokenHash := HashToken ref
             isRevoked := false, expiresAt := env.now + sevenDays
             createdAt := env.now }] } :=
  rotate_active_eq env tok store r acc ref hfind hact hacc href hcr

/-- C1 witness: the expired session of user 10, rotated with everything
external succeeding — the theorem applied at that concrete input. -/
theorem rotate_ignores_expiry_witness :
    rExpired.expiresAt < envOk.now ∧ rExpired.isRevoked = false ∧
    findByHash stExpired (HashToken "t1") = some rExpired ∧
    RotateRefreshToken envOk "t1" stExpired =
      { access := "newAccess", refresh := "newRefresh", error := none
        store := saveById stExpired { rExpired with isRevoked := true } ++
          [{ id := 2, userId := 10, tokenHash := HashToken "newRefresh"
             isRevoked := false, expiresAt := 500 + sevenDays
             createdAt := 500 }] } := by
  have hfind : findByHash stExpired (HashToken "t1") = some rExpired := by
    simp only [findByHash, stExpired]
    exact List.find?_cons_of_pos _ (by simp [rExpired])
  exact ⟨by decide, rfl, hfind,
    rotate_ignores_expiry envOk "t1" stExpired rExpired "newAccess"
      "newRefresh" hfind rfl (by decide) rfl rfl rfl⟩

/-- C1 counterexample: at the same expired input, rotation reports no error
at all and the presented row ends up revoked — against the claim's expiry
failure with the presented session left unrevoked. -/
theorem rotate_expired_counterexample :
    rExpired.expiresAt < envOk.now ∧ rExpired.isRevoked = false ∧
    findByHash stExpired (HashToken "t1") = some rExpired ∧
    (RotateRefreshToken envOk "t1" stExpired).error = none ∧
    (RotateRefreshToken envOk "t1" stExpired).store =
      [{ rExpired with isRevoked := true },
       { id := 2, userId := 10, tokenHash := HashToken "newRefresh"
         isRevoked := false, expiresAt := 500 + sevenDays
         createdAt := 500 }] := by
  have hfind : findByHash stExpired (HashToken "t1") = some rExpired := by
    simp only [findByHash, stExpired]
    exact List.find?_cons_of_pos _ (by simp [rExpired])
  have hmain := rotate_active_eq envOk "t1" stExpired rExpired
    "newAccess" "newRefresh" hfind rfl rfl rfl rfl
  refine ⟨by decide, rfl, hfind, ?_, ?_⟩
  · rw [hmain]
  · rw [hmain]
    simp [saveById, stExpired, rExpired, envOk]

/-! ## Helper lemmas for the revocation-monotonicity invariant -/

/-- A boolean that can only rise restated as the claim's disjunction. -/
theorem bool_mono_disj {a b : Bool} (hmono : a = true → b = true) :
    b = a ∨ (a = false ∧ b = true) := by
  cases a <;> cases b <;> simp_all

/-- A mapped table keeps each row's id and never clears `isRevoked`, when the
row function does. -/
theorem get_map_spec (f : RefreshToken → RefreshToken) (s : Store) (i : Nat)
    (h : i < s.length)
    (hid : ∀ r, (f r).id = r.id)
    (hmono : ∀ r, r.isRevoked = true → (f r).isRevoked = true) :
    ∃ h2 : i < (s.map f).length,
      ((s.map f).get ⟨i, h2⟩).id = (s.get ⟨i, h⟩).id ∧
      (((s.map f).get ⟨i, h2⟩).isRevoked = (s.get ⟨i, h⟩).isRevoked ∨
       ((s.get ⟨i, h⟩).isRevoked = false ∧
        ((s.map f).get ⟨i, h2⟩).isRevoked = true)) := by
  refine ⟨by simpa using h, ?_⟩
  simp only [List.get_eq_getElem, List.getElem_map]
  exact ⟨hid _, bool_mono_disj (hmono _)⟩

/-- A table equal to the old one trivially satisfies the row-wise contract. -/
theorem get_same_spec (s s2 : Store) (hs : s2 = s) (i : Nat)
    (h : i < s.length) :
    ∃ h2 : i < s2.length,
      (s2.get ⟨i, h2⟩).id = (s.get ⟨i, h⟩).id ∧
      ((s2.get ⟨i, h2⟩).isRevoked = (s.get ⟨i, h⟩).isRevoked ∨
       ((s.get ⟨i, h⟩).isRevoked = false ∧
        (s2.get ⟨i, h2⟩).isRevoked = true)) := by
  subst hs
  exact ⟨h, rfl, Or.inl rfl⟩

/-- The row-wise contract for a table known to equal a mapped table. -/
theorem get_map_eq_spec (f : RefreshToken → RefreshToken) (s s2 : Store)
    (hs : s2 = s.map f) (i : Nat) (h : i < s.length)
    (hid : ∀ r, (f r).id = r.id)
    (hmono : ∀ r, r.isRevoked = true → (f r).isRevoked = true) :
    ∃ h2 : i < s2.length,
      (s2.get ⟨i, h2⟩).id = (s.get ⟨i, h⟩).id ∧
      ((s2.get ⟨i, h2⟩).isRevoked = (s.get ⟨i, h⟩).isRevoked ∨
       ((s.get ⟨i, h⟩).isRevoked = false ∧
        (s2.get ⟨i, h2⟩).isRevoked = true)) := by
  subst hs
  exact get_map_spec f s i h hid hmono

/-- The row-wise contract for a table known to equal a mapped table with
rows appended behind it. -/
theorem get_map_append_eq_spec (f : RefreshToken → RefreshToken)
    (s s2 rest : Store) (hs : s2 = s.map f ++ rest) (i : Nat)
    (h : i < s.length)
    (hid : ∀ r, (f r).id = r.id)
    (hmono : ∀ r, r.isRevoked = true → (f r).isRevoked = true) :
    ∃ h2 : i < s2.length,
      (s2.get ⟨i, h2⟩).id = (s.get ⟨i, h⟩).id ∧
      ((s2.get ⟨i, h2⟩).isRevoked = (s.get ⟨i, h⟩).isRevoked ∨
       ((s.get ⟨i, h⟩).isRevoked = false ∧
        (s2.get ⟨i, h2⟩).isRevoked = true)) := by
  subst hs
  obtain ⟨h2, hid2, hdisj2⟩ := get_map_spec f s i h hid hmono
  refine ⟨by simp only [List.length_append, List.length_map]; omega, ?_⟩
  simp only [List.get_eq_getElem] at hid2 hdisj2 ⊢
  rw [List.getElem_append_left (by simpa using h)]
  exact ⟨hid2, hdisj2⟩

/-- Every single operation keeps each existing row's id in place and moves
its `isRevoked` flag only upward. -/
theorem applyOp_preserves (op : Op) (s : Store) (i : Nat) (h : i < s.length) :
    ∃ h2 : i < (applyOp s op).length,
      ((applyOp s op).get ⟨i, h2⟩).id = (s.get ⟨i, h⟩).id ∧
      (((applyOp s op).get ⟨i, h2⟩).isRevoked = (s.get ⟨i, h⟩).isRevoked ∨
       ((s.get ⟨i, h⟩).isRevoked = false ∧
        ((applyOp s op).get ⟨i, h2⟩).isRevoked = true)) := by
  cases op with
  | logout cookie =>
    simp only [applyOp, Logout, updateIsRevokedWhere]
    apply get_map_spec _ _ _ h
    · intro r
      by_cases hc : (r.tokenHash == HashToken cookie) = true <;> simp [hc]
    · intro r hr
      by_cases hc : (r.tokenHash == HashToken cookie) = true <;> simp [hc, hr]
  | storeToken newId userID tok e c =>
    refine ⟨by simp [applyOp, StoreRefreshToken]; omega, ?_⟩
    simp only [applyOp, StoreRefreshToken, List.get_eq_getElem]
    rw [List.getElem_append_left h]
    exact ⟨rfl, Or.inl rfl⟩
  | rotate env tok =>
    simp only [applyOp]
    cases hf : findByHash s (HashToken tok) with
    | none =>
      apply get_same_spec _ _ _ _ h
      simp only [RotateRefreshToken, hf]
    | some dbToken =>
      by_cases hrev : dbToken.isRevoked = true
      · by_cases hw : env.revokeAllFails = true
        · apply get_same_spec _ _ _ _ h
          simp only [RotateRefreshToken, hf, hrev, hw]
          simp
        · have hw2 : env.revokeAllFails = false := by simpa using hw
          apply get_map_eq_spec
            (fun r => if r.userId == dbToken.userId then
              { r with isRevoked := true } else r) _ _ ?_ i h
          · intro r
            by_cases hc : (r.userId == dbToken.userId) = true <;> simp [hc]
          · intro r hr
            by_cases hc : (r.userId == dbToken.userId) = true <;> simp [hc, hr]
          · simp only [RotateRefreshToken, hf, hrev, hw2]
            simp [revokeAllForUser, updateIsRevokedWhere]
      · cases hacc : env.genAccessToken with
        | none =>
          apply get_same_spec _ _ _ _ h
          simp only [RotateRefreshToken, hf, hrev, hacc]
          simp
        | some a =>
          cases href : env.genRefreshToken with
          | none =>
            apply get_same_spec _ _ _ _ h
            simp only [RotateRefreshToken, hf, hrev, hacc, href]
            simp
          | some b =>
            by_cases hcr : env.createFails = true
            · apply get_same_spec _ _ _ _ h
              simp only [RotateRefreshToken, hf, hrev, hacc, href, hcr]
              simp
            · have hcr2 : env.createFails = false := by simpa using hcr
              apply get_map_append_eq_spec
                (fun x => if x.id == ({ dbToken with isRevoked := true } :
                    RefreshToken).id then { dbToken with isRevoked := true }
                  else x) _ _
                [{ id := env.newId, userId := dbToken.userId
                   tokenHash := HashToken b, isRevoked := false
                   expiresAt := env.now + sevenDays
                   createdAt := env.now }] ?_ i h
              · intro r
                by_cases hc : (r.id == dbToken.id) = true
                · simp only [hc]
                  simp only [if_pos]
                  simpa using (beq_iff_eq.mp hc).symm
                · simp [hc]
              · intro r hr
                by_cases hc : (r.id == dbToken.id) = true <;> simp [hc, hr]
              · simp only [RotateRefreshToken, hf, hrev, hacc, href, hcr2]
                simp [saveById]

/-- Over any operation sequence, a revoked row never becomes unrevoked. -/
theorem applyOps_monotone (ops : List Op) (s : Store) (i : Nat)
    (h : i < s.length) (hrev : (s.get ⟨i, h⟩).isRevoked = true) :
    ∃ h2 : i < (applyOps s ops).length,
      ((applyOps s ops).get ⟨i, h2⟩).isRevoked = true := by
  induction ops generalizing s with
  | nil => exact ⟨h, hrev⟩
  | cons op ops ih =>
    obtain ⟨h2, _, hdisj⟩ := applyOp_preserves op s i h
    have hrev2 : ((applyOp s op).get ⟨i, h2⟩).isRevoked = true := by
      rcases hdisj with he | ⟨_, ht⟩
      · rw [he, hrev]
      · exact ht
    simpa only [applyOps, List.foldl_cons] using
      ih (applyOp s op) h2 hrev2

/-! ## C7 — `isRevoked` is monotonic across all core operations -/

/-- C7: every core operation (rotation in any of its outcomes, logout, bulk
revocation inside rotation, session creation) keeps each existing row in
place with its id, and either leaves the row's `isRevoked` unchanged or
raises it from false to true; consequently no sequence of operations ever
resets a revoked row back to unrevoked. -/
theorem isRevoked_monotone :
    (∀ (op : Op) (s : Store) (i : Nat) (h : i < s.length),
      ∃ h2 : i < (applyOp s op).length,
        ((applyOp s op).get ⟨i, h2⟩).id = (s.get ⟨i, h⟩).id ∧
        (((applyOp s op).get ⟨i, h2⟩).isRevoked = (s.get ⟨i, h⟩).isRevoked ∨
         ((s.get ⟨i, h⟩).isRevoked = false ∧
          ((applyOp s op).get ⟨i, h2⟩).isRevoked = true))) ∧
    (∀ (ops : List Op) (s : Store) (i : Nat) (h : i < s.length),
      (s.get ⟨i, h⟩).isRevoked = true →
      ∃ h2 : i < (applyOps s ops).length,
        ((applyOps s ops).get ⟨i, h2⟩).isRevoked = true) :=
  ⟨applyOp_preserves, applyOps_monotone⟩

/-- C7 witness: the theorem applied to the one-row table whose row is already
revoked, across a logout call. -/
theorem isRevoked_monotone_witness :
    (0 < stDone.length ∧ (stDone.get ⟨0, by simp [stDone]⟩).isRevoked = true) ∧
    (∃ h2 : 0 < (applyOps stDone [Op.logout "x"]).length,
      ((applyOps stDone [Op.logout "x"]).get ⟨0, h2⟩).isRevoked = true) :=
  ⟨⟨by simp [stDone], rfl⟩,
   isRevoked_monotone.2 [Op.logout "x"] stDone 0 (by simp [stDone]) rfl⟩

/-! ## C8 — explicit revocation is idempotent -/

/-- C8: running the logout path twice with the same cookie reports success
both times, and the second run changes nothing: the table after the second
run is the table after the first, whatever the cookie and table. -/
theorem logout_idempotent (store : Store) (cookie : String) :
    (Logout store cookie).message = "Logged out successfully" ∧
    (Logout (Logout store cookie).store cookie).message =
      "Logged out successfully" ∧
    (Logout (Logout store cookie).store cookie).store =
      (Logout store cookie).store := by
  refine ⟨rfl, rfl, ?_⟩
  simp only [Logout, updateIsRevokedWhere, List.map_map]
  apply List.map_congr_left
  intro r _
  by_cases hc : (r.tokenHash == HashToken cookie) = true
  · simp [Function.comp, hc]
  · simp [Function.comp, hc]

/-! ## C9 — logout reports success unconditionally -/

/-- C9: the logout path returns the fixed success body and clears the cookie
for every input — including the absent cookie, read as the empty string — and
when no stored row's hash matches the cookie's hash it leaves the table
untouched; no error is ever surfaced. -/
theorem logout_always_succeeds (store : Store) (cookie : String) :
    (Logout store cookie).message = "Logged out successfully" ∧
    (Logout store cookie).cookieCleared = true ∧
    ((∀ r ∈ store, r.tokenHash ≠ HashToken cookie) →
      (Logout store cookie).store = store) := by
  refine ⟨rfl, rfl, fun hnone => ?_⟩
  simp only [Logout, updateIsRevokedWhere]
  conv_rhs => rw [← List.map_id store]
  apply List.map_congr_left
  intro r hr
  have hc : (r.tokenHash == HashToken cookie) = false := by
    simpa using hnone r hr
  simp [hc]

/-- C9 witness: logging out with no cookie against the empty table — success,
cookie cleared, table unchanged. -/
theorem logout_always_succeeds_witness :
    (Logout [] "").message = "Logged out successfully" ∧
    (Logout [] "").cookieCleared = true ∧
    (Logout [] "").store = [] :=
  ⟨(logout_always_succeeds [] "").1, (logout_always_succeeds [] "").2.1,
   (logout_always_succeeds [] "").2.2 (by simp)⟩

end FiberOrder
